import Mathlib

/-!
# Verification of `NetworkCamera` (src/src/backends/capture/network_camera.rs)

A shallow embedding of the `NetworkCamera` IP-camera adapter.  The adapter
holds a network address string and an owned handle to an external OpenCV
capture device; its methods forward to that device, convert RGB frames to
RGBA, and optionally upload a frame into a wgpu texture.

Modelling conventions:
* Methods taking `&mut self` are embedded as functions `NetworkCamera → ... →
  result × NetworkCamera` (explicit state passing).  An early `?` return
  leaves the state component at the input state, mirroring Rust's early
  return before any field is written.
* Calls into the external OpenCV backend (`new_ip_camera`, `frame`,
  `stop_stream`) are modelled by oracle parameters of type `Except`, since
  their outcomes are decided outside this file.
* Rust panics (e.g. `slice::copy_from_slice` length mismatch, `todo!()`)
  are a distinct `RtResult.panic` outcome, separate from checked
  `Result::Err` values.
* Machine integers (`u32` widths/heights, `usize` sizes) are embedded as
  `Nat`; the `Resolution` type itself lives outside this file's source and
  is modelled from the spec, which gives no bit width.
-/

set_option autoImplicit false

namespace NokhwaSpec

/-- Outcome of running a Rust expression: a normal value, a checked
`Result::Err`, or a panic (which unwinds/aborts rather than returning). -/
inductive RtResult (ε : Type) (α : Type) where
  | ok : α → RtResult ε α
  | err : ε → RtResult ε α
  | panic : String → RtResult ε α
deriving DecidableEq, Repr

/-- Whether the outcome is a panic. -/
def RtResult.isPanic {ε α : Type} : RtResult ε α → Bool
  | .panic _ => true
  | _ => false

/-- Whether the outcome is a checked error. -/
def RtResult.isErr {ε α : Type} : RtResult ε α → Bool
  | .err _ => true
  | _ => false

/-- The variants of `NokhwaError` used by this file (the full enum lives
outside the excerpt; only these variants are constructed or forwarded
here). `other` stands for any error value produced by the wrapped OpenCV
backend and merely forwarded. -/
inductive NokhwaError where
  | ReadFrameError : String → NokhwaError
  | other : String → NokhwaError
deriving DecidableEq, Repr

/-- Modelled from the spec: the Capture Device Provider exposes
`current_resolution() -> (width, height)`; the `Resolution` type is not in
the excerpt, so its two dimensions are modelled as unbounded naturals. -/
structure Resolution where
  width : Nat
  height : Nat
deriving DecidableEq, Repr

/-- Modelled from the spec: the external capture device obtained from
`open(address) -> Device`; it is bound to the address it was opened with
and reports a current resolution.  Its internal behaviour is external to
this file. -/
structure OpenCvCaptureDevice where
  ip : String
  resolution : Resolution
deriving DecidableEq, Repr

/-- The adapter state: `ip` is the stored network address and
`opencv_backend` the owned device handle (the `RefCell` wrapper only
provides interior mutability and is dropped in the embedding). -/
structure NetworkCamera where
  ip : String
  opencv_backend : OpenCvCaptureDevice
deriving DecidableEq, Repr

/-- A decoded RGB24 frame (`ImageBuffer<Rgb<u8>, Vec<u8>>`): row-major
bytes, three bytes per pixel; the `ImageBuffer` invariant ties the byte
length to the dimensions. -/
structure FrameRGB where
  width : Nat
  height : Nat
  data : List Nat
  hdata : data.length = width * height * 3

/-- The handle invariant: the owned device is in sync with the stored
address (it was opened against that address). -/
def inSync (cam : NetworkCamera) : Prop :=
  cam.opencv_backend.ip = cam.ip

/-- `NetworkCamera::new(ip)`: opens an OpenCV IP camera (outcome supplied
by the oracle `openResult`) and on success stores the address next to the
handle; on failure the `?` operator propagates the error. -/
def NetworkCamera.new (ip : String)
    (openResult : Except NokhwaError OpenCvCaptureDevice) :
    Except NokhwaError NetworkCamera :=
  match openResult with
  | .error e => .error e
  | .ok opencv_camera => .ok { ip := ip, opencv_backend := opencv_camera }

/-- `NetworkCamera::ip()`: returns a clone of the stored address; the
state component records that the handle is not changed. -/
def ipGet (cam : NetworkCamera) : String × NetworkCamera :=
  (cam.ip, cam)

/-- `NetworkCamera::set_ip(ip)`: evaluates
`OpenCvCaptureDevice::new_ip_camera(ip.clone())?` first (outcome supplied
by the oracle); on error the `?` returns before either field of `self` is
written, so the state is the input state; on success the device is
replaced and then `self.ip = ip` is assigned. -/
def NetworkCamera.set_ip (cam : NetworkCamera) (ip : String)
    (openResult : Except NokhwaError OpenCvCaptureDevice) :
    Except NokhwaError Unit × NetworkCamera :=
  match openResult with
  | .error e => (.error e, cam)
  | .ok dev => (.ok (), { ip := ip, opencv_backend := dev })

/-- `NetworkCamera::min_buffer_size(rgba)`: reads the backend resolution
through an immutable borrow and returns `width * height * 4` when `rgba`
is set, else `width * height * 3`.  Pure: a function of the state with no
state result. -/
def NetworkCamera.min_buffer_size (cam : NetworkCamera) (rgba : Bool) : Nat :=
  let resolution := cam.opencv_backend.resolution
  if rgba then
    resolution.width * resolution.height * 4
  else
    resolution.width * resolution.height * 3

/-- Modelled from the spec: `rgb_to_rgba` — the RGB→RGBA conversion the
adapter obtains from `image::buffer::ConvertBuffer` ("expands each pixel
from 3 channels to 4 channels, setting alpha to fully opaque").  On the
flat byte list: every group of three bytes is kept and followed by an
alpha byte 255. -/
def rgb_to_rgba : List Nat → List Nat
  | r :: g :: b :: rest => r :: g :: b :: 255 :: rgb_to_rgba rest
  | _ => []

/-- `<[u8]>::copy_from_slice`: panics when the lengths differ (before
writing anything), otherwise replaces the destination contents with the
source. -/
def copy_from_slice (dst src : List Nat) : RtResult NokhwaError (List Nat) :=
  if dst.length = src.length then .ok src
  else .panic "source slice length does not match destination slice length"

/-- `NetworkCamera::frame_to_buffer(buffer, convert_rgba)`: fetches a
frame (oracle `frameResult`), converts it to RGBA when asked, records the
byte count, and copies into the caller's buffer with `copy_from_slice`.
Returns the written buffer contents together with the byte count. -/
def NetworkCamera.frame_to_buffer (buffer : List Nat) (convert_rgba : Bool)
    (frameResult : Except NokhwaError FrameRGB) :
    RtResult NokhwaError (List Nat × Nat) :=
  match frameResult with
  | .error e => .err e
  | .ok frame =>
    let frame_data := if convert_rgba then rgb_to_rgba frame.data else frame.data
    let bytes := frame_data.length
    match copy_from_slice buffer frame_data with
    | .ok written => .ok (written, bytes)
    | .err e => .err e
    | .panic msg => .panic msg

/-- `NetworkCamera::stop_stream` (the inherent, module-private method):
forwards to the backend's `stop_stream`, whose outcome is the oracle;
never panics, merely propagates the backend's `Result`. -/
def NetworkCamera.stop_stream (cam : NetworkCamera)
    (backendResult : Except NokhwaError Unit) :
    RtResult NokhwaError (Unit × NetworkCamera) :=
  match backendResult with
  | .error e => .err e
  | .ok _ => .ok ((), cam)

/-- `<NetworkCamera as CaptureBackendTrait>::stop_stream`: the trait
implementation is `todo!()`, which panics unconditionally. -/
def CaptureBackendTraitStopStream (_cam : NetworkCamera) :
    RtResult NokhwaError (Unit × NetworkCamera) :=
  .panic "not yet implemented"

/-- `wgpu::TextureDimension` (only `D2` is constructed here). -/
inductive TextureDimension where
  | D1
  | D2
  | D3
deriving DecidableEq, Repr

/-- `wgpu::TextureFormat` (only `Rgba8UnormSrgb` — 8-bit RGBA with sRGB
gamma interpretation — is constructed here). -/
inductive TextureFormat where
  | Rgba8UnormSrgb
deriving DecidableEq, Repr

/-- `wgpu::TextureUsages` bit set, restricted to the two flags this file
uses: `TEXTURE_BINDING` (sampling source) and `COPY_DST` (copy
destination). -/
structure TextureUsages where
  TEXTURE_BINDING : Bool
  COPY_DST : Bool
deriving DecidableEq, Repr

/-- `wgpu::Extent3d`. -/
structure Extent3d where
  width : Nat
  height : Nat
  depth_or_array_layers : Nat
deriving DecidableEq, Repr

/-- `wgpu::TextureDescriptor`, restricted to the fields this file sets. -/
structure TextureDescriptor where
  label : Option String
  size : Extent3d
  mip_level_count : Nat
  sample_count : Nat
  dimension : TextureDimension
  format : TextureFormat
  usage : TextureUsages
deriving DecidableEq, Repr

/-- A GPU texture, identified by the descriptor it was created with. -/
structure WgpuTexture where
  desc : TextureDescriptor
deriving DecidableEq, Repr

/-- `wgpu::ImageDataLayout`: strides for `write_texture`.  The `Option`
wrapping mirrors `Option<NonZeroU32>` in the source (`Some` of a nonzero
value once the `NonZeroU32` conversion succeeded). -/
structure ImageDataLayout where
  offset : Nat
  bytes_per_row : Option Nat
  rows_per_image : Option Nat
deriving DecidableEq, Repr

/-- A call issued to the GPU device/queue, recorded in order. -/
inductive GpuCall where
  | createTexture : TextureDescriptor → GpuCall
  | writeTexture : TextureDescriptor → List Nat → ImageDataLayout → Extent3d → GpuCall
deriving DecidableEq, Repr

/-- Whether a GPU call is a `create_texture` allocation. -/
def GpuCall.isCreateTexture : GpuCall → Bool
  | .createTexture _ => true
  | _ => false

/-- `NonZeroU32::try_from`: fails exactly on zero (`TryFromIntError`);
the embedded value range is otherwise unrestricted since widths are
already `Nat`. -/
def nonZeroU32TryFrom (n : Nat) : Except String Nat :=
  if n = 0 then .error "out of range integral type conversion attempted"
  else .ok n

/-- `u32` multiplication as compiled in release mode: the product wraps
modulo `2 ^ 32`.  The source computes `4 * rgba_frame.width()` in `u32`
(`ImageBuffer` dimensions are `u32`), so the product wraps for widths at
or above `2 ^ 30`. -/
def u32Mul (a b : Nat) : Nat :=
  a * b % 4294967296

/-- `NetworkCamera::frame_texture(device, queue, label)`: fetches a frame
(oracle `frameResult`), converts it to RGBA, creates the texture with a
fixed descriptor, then converts `4 * width` (a wrapping `u32` product)
and `height` to `NonZeroU32` (returning `NokhwaError::ReadFrameError` on
zero), and finally writes the RGBA bytes with `queue.write_texture`.  The
second component is the ordered trace of GPU calls issued.  The
conversion `frame.convert()` preserves the dimensions, so
`rgba_frame.width() = frame.width` and
`rgba_frame.height() = frame.height`. -/
def NetworkCamera.frame_texture (label : Option String)
    (frameResult : Except NokhwaError FrameRGB) :
    Except NokhwaError WgpuTexture × List GpuCall :=
  match frameResult with
  | .error e => (.error e, [])
  | .ok frame =>
    let rgba_frame := rgb_to_rgba frame.data
    let texture_size : Extent3d :=
      { width := frame.width, height := frame.height, depth_or_array_layers := 1 }
    let descriptor : TextureDescriptor :=
      { label := label
        size := texture_size
        mip_level_count := 1
        sample_count := 1
        dimension := TextureDimension.D2
        format := TextureFormat.Rgba8UnormSrgb
        usage := { TEXTURE_BINDING := true, COPY_DST := true } }
    let texture : WgpuTexture := { desc := descriptor }
    match nonZeroU32TryFrom (u32Mul 4 frame.width) with
    | .error why =>
      (.error (NokhwaError.ReadFrameError why), [GpuCall.createTexture descriptor])
    | .ok width_nonzero =>
      match nonZeroU32TryFrom frame.height with
      | .error why =>
        (.error (NokhwaError.ReadFrameError why), [GpuCall.createTexture descriptor])
      | .ok height_nonzero =>
        (.ok texture,
          [GpuCall.createTexture descriptor,
           GpuCall.writeTexture descriptor rgba_frame
             { offset := 0
               bytes_per_row := some width_nonzero
               rows_per_image := some height_nonzero }
             texture_size])

/-- `impl Drop for NetworkCamera`: calls the inherent `stop_stream` (method
resolution prefers it over the trait stub), binds the result to
`_stop_stream_err` and discards it.  A panic inside the call would still
unwind through `drop`. -/
def NetworkCamera.drop (cam : NetworkCamera)
    (backendResult : Except NokhwaError Unit) : RtResult NokhwaError Unit :=
  match NetworkCamera.stop_stream cam backendResult with
  | .panic msg => .panic msg
  | _ => .ok ()

/-! ## Helper lemmas -/

/-- On a buffer assembled from whole 3-byte pixels, `rgb_to_rgba` keeps
each pixel's three channels and appends an alpha byte 255. -/
theorem rgb_to_rgba_join (ps : List (Nat × Nat × Nat)) :
    rgb_to_rgba ((ps.map fun p => [p.1, p.2.1, p.2.2]).flatten) =
      (ps.map fun p => [p.1, p.2.1, p.2.2, 255]).flatten := by
  induction ps with
  | nil => rfl
  | cons p ps ih => simp [rgb_to_rgba, ih]

/-- Length law for `rgb_to_rgba` on buffers holding `k` whole pixels. -/
theorem rgb_to_rgba_length (k : Nat) :
    ∀ l : List Nat, l.length = 3 * k → (rgb_to_rgba l).length = 4 * k := by
  induction k with
  | zero =>
    intro l hl
    have hnil : l = [] := List.eq_nil_of_length_eq_zero hl
    subst hnil
    rfl
  | succ k ih =>
    intro l hl
    match l with
    | [] => simp at hl
    | [a] => simp at hl; omega
    | [a, b] => simp at hl; omega
    | a :: b :: c :: rest =>
      have hrest : rest.length = 3 * k := by
        simp at hl
        omega
      have h2 := ih rest hrest
      simp [rgb_to_rgba]
      omega

/-! ## Claim theorems -/

/-- C3: when `set_ip` fails because opening the new connection fails, the
error is surfaced and both the previously open device handle and the
previously stored address are left untouched; when it succeeds, the
stored address equals the new address, the device handle is the newly
opened one, and the handle/address sync invariant holds for the new
state. -/
theorem set_ip_spec (cam : NetworkCamera) (ip : String) (e : NokhwaError)
    (dev : OpenCvCaptureDevice) (hdev : dev.ip = ip) :
    cam.set_ip ip (.error e) = (.error e, cam) ∧
    cam.set_ip ip (.ok dev) = (.ok (), { ip := ip, opencv_backend := dev }) ∧
    inSync (cam.set_ip ip (.ok dev)).2 := by
  refine ⟨rfl, rfl, ?_⟩
  simpa [NetworkCamera.set_ip, inSync] using hdev

/-- C3 witness: `set_ip` at a concrete camera, address and device. -/
theorem set_ip_spec_witness :
    NetworkCamera.set_ip ⟨"rtsp://old/", ⟨"rtsp://old/", ⟨640, 480⟩⟩⟩ "rtsp://new/"
        (.error (NokhwaError.other "open failed")) =
      (.error (NokhwaError.other "open failed"), ⟨"rtsp://old/", ⟨"rtsp://old/", ⟨640, 480⟩⟩⟩) ∧
    NetworkCamera.set_ip ⟨"rtsp://old/", ⟨"rtsp://old/", ⟨640, 480⟩⟩⟩ "rtsp://new/"
        (.ok ⟨"rtsp://new/", ⟨640, 480⟩⟩) =
      (.ok (), ⟨"rtsp://new/", ⟨"rtsp://new/", ⟨640, 480⟩⟩⟩) ∧
    inSync (NetworkCamera.set_ip ⟨"rtsp://old/", ⟨"rtsp://old/", ⟨640, 480⟩⟩⟩ "rtsp://new/"
        (.ok ⟨"rtsp://new/", ⟨640, 480⟩⟩)).2 :=
  set_ip_spec ⟨"rtsp://old/", ⟨"rtsp://old/", ⟨640, 480⟩⟩⟩ "rtsp://new/"
    (NokhwaError.other "open failed") ⟨"rtsp://new/", ⟨640, 480⟩⟩ rfl

/-- C4: for every camera whose current resolution has positive width and
height, `min_buffer_size false` is `width * height * 3` and
`min_buffer_size true` is `width * height * 4`; the embedding is a pure
function of the handle state, touching no other state. -/
theorem min_buffer_size_spec (cam : NetworkCamera)
    (_hw : 0 < cam.opencv_backend.resolution.width)
    (_hh : 0 < cam.opencv_backend.resolution.height) :
    cam.min_buffer_size false =
      cam.opencv_backend.resolution.width * cam.opencv_backend.resolution.height * 3 ∧
    cam.min_buffer_size true =
      cam.opencv_backend.resolution.width * cam.opencv_backend.resolution.height * 4 :=
  ⟨rfl, rfl⟩

/-- C4 witness: the buffer sizes at a concrete 640×480 camera. -/
theorem min_buffer_size_spec_witness :
    NetworkCamera.min_buffer_size ⟨"rtsp://a/", ⟨"rtsp://a/", ⟨640, 480⟩⟩⟩ false = 640 * 480 * 3 ∧
    NetworkCamera.min_buffer_size ⟨"rtsp://a/", ⟨"rtsp://a/", ⟨640, 480⟩⟩⟩ true = 640 * 480 * 4 :=
  min_buffer_size_spec ⟨"rtsp://a/", ⟨"rtsp://a/", ⟨640, 480⟩⟩⟩ (by decide) (by decide)

/-- C5: `rgb_to_rgba` is a total function (hence pure and deterministic);
on every RGB buffer (byte length divisible by 3) the output length is
`length / 3 * 4`, and pixel by pixel the three RGB channels are kept
unchanged and the appended alpha channel is 255, the maximum channel
value. -/
theorem rgb_to_rgba_spec (l : List Nat) (ps : List (Nat × Nat × Nat))
    (hl : 3 ∣ l.length) :
    (rgb_to_rgba l).length = l.length / 3 * 4 ∧
    rgb_to_rgba ((ps.map fun p => [p.1, p.2.1, p.2.2]).flatten) =
      (ps.map fun p => [p.1, p.2.1, p.2.2, 255]).flatten := by
  obtain ⟨k, hk⟩ := hl
  refine ⟨?_, rgb_to_rgba_join ps⟩
  have h2 := rgb_to_rgba_length k l hk
  omega

/-- C5 witness: the spec's example scenario, a 4×2 RGB frame of 8 pixels
becoming a 32-byte RGBA buffer with alpha 255 in every fourth byte. -/
theorem rgb_to_rgba_spec_witness :
    (rgb_to_rgba [10, 11, 12, 20, 21, 22, 30, 31, 32, 40, 41, 42,
      50, 51, 52, 60, 61, 62, 70, 71, 72, 80, 81, 82]).length = 24 / 3 * 4 ∧
    rgb_to_rgba (([(10, 11, 12), (20, 21, 22), (30, 31, 32), (40, 41, 42),
        (50, 51, 52), (60, 61, 62), (70, 71, 72), (80, 81, 82)].map
          fun p => [p.1, p.2.1, p.2.2]).flatten) =
      (([(10, 11, 12), (20, 21, 22), (30, 31, 32), (40, 41, 42),
        (50, 51, 52), (60, 61, 62), (70, 71, 72), (80, 81, 82)].map
          fun p => [p.1, p.2.1, p.2.2, 255]).flatten) :=
  rgb_to_rgba_spec [10, 11, 12, 20, 21, 22, 30, 31, 32, 40, 41, 42,
      50, 51, 52, 60, 61, 62, 70, 71, 72, 80, 81, 82]
    [(10, 11, 12), (20, 21, 22), (30, 31, 32), (40, 41, 42),
      (50, 51, 52), (60, 61, 62), (70, 71, 72), (80, 81, 82)] (by decide)

/-- C2 counterexample: for a 1×1 camera, `min_buffer_size false = 3`; a
2-byte destination (shorter than the minimum) makes `frame_to_buffer`
panic through `copy_from_slice` rather than return a checked error, and a
6-byte destination (larger than the minimum) also panics rather than
performing the copy. -/
theorem frame_to_buffer_counterexample :
    2 < NetworkCamera.min_buffer_size ⟨"rtsp://a/", ⟨"rtsp://a/", ⟨1, 1⟩⟩⟩ false ∧
    (NetworkCamera.frame_to_buffer [0, 0] false (.ok ⟨1, 1, [10, 20, 30], rfl⟩)).isErr = false ∧
    (NetworkCamera.frame_to_buffer [0, 0] false (.ok ⟨1, 1, [10, 20, 30], rfl⟩)).isPanic = true ∧
    3 ≤ (6 : Nat) ∧
    (NetworkCamera.frame_to_buffer [0, 0, 0, 0, 0, 0] false
      (.ok ⟨1, 1, [10, 20, 30], rfl⟩)).isPanic = true :=
  ⟨by decide, rfl, rfl, by decide, rfl⟩

/-- C2 amended: `frame_to_buffer` never writes out of bounds, but the
failure mode for an undersized (or oversized) destination is the
`copy_from_slice` length-mismatch panic, not a checked error: when the
destination length equals the frame's byte length (`min_buffer_size
want_rgba` for a frame at the camera's resolution) the copy succeeds,
replacing the buffer and returning that byte count; for any other
destination length — smaller than the minimum or even larger than it —
the call panics after writing nothing. -/
theorem frame_to_buffer_size_spec (cam : NetworkCamera) (frame : FrameRGB)
    (buffer : List Nat) (rgba : Bool)
    (hw : frame.width = cam.opencv_backend.resolution.width)
    (hh : frame.height = cam.opencv_backend.resolution.height) :
    (buffer.length = cam.min_buffer_size rgba →
      NetworkCamera.frame_to_buffer buffer rgba (.ok frame) =
        .ok (if rgba then rgb_to_rgba frame.data else frame.data,
             cam.min_buffer_size rgba)) ∧
    (buffer.length ≠ cam.min_buffer_size rgba →
      NetworkCamera.frame_to_buffer buffer rgba (.ok frame) =
        .panic "source slice length does not match destination slice length") := by
  have hdata := frame.hdata
  have hlen : (if rgba then rgb_to_rgba frame.data else frame.data).length =
      cam.min_buffer_size rgba := by
    cases rgba with
    | false =>
      simp [NetworkCamera.min_buffer_size, hdata, hw, hh]
    | true =>
      have h4 : (rgb_to_rgba frame.data).length = 4 * (frame.width * frame.height) :=
        rgb_to_rgba_length (frame.width * frame.height) frame.data (by omega)
      simp [NetworkCamera.min_buffer_size, h4, hw, hh]
      ring
  constructor
  · intro hbuf
    simp only [NetworkCamera.frame_to_buffer, copy_from_slice]
    rw [if_pos (by rw [hbuf, hlen])]
    cases rgba <;> simp_all
  · intro hbuf
    simp only [NetworkCamera.frame_to_buffer, copy_from_slice]
    rw [if_neg (by rw [hlen]; exact hbuf)]

/-- C2 witness: an exact-size 3-byte buffer for a 1×1 frame succeeds with
3 bytes written, and a 2-byte buffer panics. -/
theorem frame_to_buffer_size_spec_witness :
    ((3 : Nat) =
        NetworkCamera.min_buffer_size ⟨"rtsp://a/", ⟨"rtsp://a/", ⟨1, 1⟩⟩⟩ false →
      NetworkCamera.frame_to_buffer [0, 0, 0] false (.ok ⟨1, 1, [10, 20, 30], rfl⟩) =
        .ok (if false then rgb_to_rgba [10, 20, 30] else [10, 20, 30],
          NetworkCamera.min_buffer_size ⟨"rtsp://a/", ⟨"rtsp://a/", ⟨1, 1⟩⟩⟩ false)) ∧
    ((3 : Nat) ≠
        NetworkCamera.min_buffer_size ⟨"rtsp://a/", ⟨"rtsp://a/", ⟨1, 1⟩⟩⟩ false →
      NetworkCamera.frame_to_buffer [0, 0, 0] false (.ok ⟨1, 1, [10, 20, 30], rfl⟩) =
        .panic "source slice length does not match destination slice length") :=
  frame_to_buffer_size_spec ⟨"rtsp://a/", ⟨"rtsp://a/", ⟨1, 1⟩⟩⟩
    ⟨1, 1, [10, 20, 30], rfl⟩ [0, 0, 0] false rfl rfl

/-- C10: `frame_to_buffer` succeeds exactly when the destination length
equals the frame's byte length — `width * height * 3`, or
`width * height * 4` when `convert_rgba` is set — and on success the
returned byte count equals that length. -/
theorem frame_to_buffer_exact_length (frame : FrameRGB) (buffer : List Nat)
    (rgba : Bool) :
    ((∃ out, NetworkCamera.frame_to_buffer buffer rgba (.ok frame) = .ok out) ↔
      buffer.length =
        (if rgba then frame.width * frame.height * 4
         else frame.width * frame.height * 3)) ∧
    (∀ out, NetworkCamera.frame_to_buffer buffer rgba (.ok frame) = .ok out →
      out.2 =
        (if rgba then frame.width * frame.height * 4
         else frame.width * frame.height * 3)) := by
  have hdata := frame.hdata
  have hlen : (if rgba then rgb_to_rgba frame.data else frame.data).length =
      (if rgba then frame.width * frame.height * 4
       else frame.width * frame.height * 3) := by
    cases rgba with
    | false => simpa using hdata
    | true =>
      have h4 : (rgb_to_rgba frame.data).length = 4 * (frame.width * frame.height) :=
        rgb_to_rgba_length (frame.width * frame.height) frame.data (by omega)
      simp [h4]
      ring
  constructor
  · constructor
    · rintro ⟨out, hout⟩
      simp only [NetworkCamera.frame_to_buffer, copy_from_slice] at hout
      by_cases hb : buffer.length = (if rgba then rgb_to_rgba frame.data
          else frame.data).length
      · rw [hb, hlen]
      · rw [if_neg hb] at hout
        cases rgba <;> simp_all
    · intro hb
      refine ⟨(if rgba then rgb_to_rgba frame.data else frame.data,
        (if rgba then rgb_to_rgba frame.data else frame.data).length), ?_⟩
      simp only [NetworkCamera.frame_to_buffer, copy_from_slice]
      rw [if_pos (by rw [hb, hlen])]
  · intro out hout
    simp only [NetworkCamera.frame_to_buffer, copy_from_slice] at hout
    by_cases hb : buffer.length = (if rgba then rgb_to_rgba frame.data
        else frame.data).length
    · rw [if_pos hb] at hout
      cases rgba <;> simp_all [eq_comm]
    · rw [if_neg hb] at hout
      cases rgba <;> simp_all

/-- C10 witness: for a 1×1 RGB frame, a 3-byte destination admits a
successful call. -/
theorem frame_to_buffer_exact_length_witness :
    ∃ out, NetworkCamera.frame_to_buffer [0, 0, 0] false
      (.ok ⟨1, 1, [10, 20, 30], rfl⟩) = .ok out :=
  (frame_to_buffer_exact_length ⟨1, 1, [10, 20, 30], rfl⟩ [0, 0, 0] false).1.mpr
    (by decide)

/-- C7 counterexample: the only publicly reachable `stop_stream` is the
`CaptureBackendTrait` implementation, and it is `todo!()`: already the
first call on a freshly constructed camera (so in particular a call made
before `open_stream`, and each of two calls in a row) panics instead of
returning an error or no-oping. -/
theorem trait_stop_stream_counterexample :
    CaptureBackendTraitStopStream ⟨"rtsp://cam/", ⟨"rtsp://cam/", ⟨640, 480⟩⟩⟩ =
      .panic "not yet implemented" ∧
    (CaptureBackendTraitStopStream ⟨"rtsp://cam/", ⟨"rtsp://cam/", ⟨640, 480⟩⟩⟩).isPanic = true :=
  ⟨rfl, rfl⟩

/-- C7 amended: the inherent (module-private) `NetworkCamera::stop_stream`
never panics — for every handle state and every backend outcome it
forwards the backend's `Result`, so repeated calls or calls before
`open_stream` surface at most an error; but the public
`CaptureBackendTrait::stop_stream` is an unimplemented `todo!()` stub that
panics on every call. -/
theorem stop_stream_panic_spec :
    (∀ (cam : NetworkCamera) (r : Except NokhwaError Unit),
      (NetworkCamera.stop_stream cam r).isPanic = false) ∧
    (∀ cam : NetworkCamera, (CaptureBackendTraitStopStream cam).isPanic = true) := by
  constructor
  · intro cam r
    cases r <;> rfl
  · intro cam
    rfl

/-- C8: `Drop for NetworkCamera` invokes the inherent `stop_stream` and
discards its result: for every handle state and every backend outcome the
teardown returns unit, propagating no failure and no panic. -/
theorem drop_spec :
    ∀ (cam : NetworkCamera) (r : Except NokhwaError Unit),
      NetworkCamera.drop cam r = .ok () := by
  intro cam r
  cases r <;> rfl

/-- C9: constructing a camera with address `A` and immediately reading the
address returns `A`, and the accessor leaves the handle unchanged. -/
theorem new_then_ip (A : String) (dev : OpenCvCaptureDevice) (cam : NetworkCamera)
    (h : NetworkCamera.new A (.ok dev) = .ok cam) :
    ipGet cam = (A, cam) := by
  cases h
  rfl

/-- C9 witness: construct at a concrete address and read it back. -/
theorem new_then_ip_witness :
    ipGet ⟨"rtsp://10.0.0.7/stream", ⟨"rtsp://10.0.0.7/stream", ⟨640, 480⟩⟩⟩ =
      ("rtsp://10.0.0.7/stream", ⟨"rtsp://10.0.0.7/stream", ⟨"rtsp://10.0.0.7/stream", ⟨640, 480⟩⟩⟩) :=
  new_then_ip "rtsp://10.0.0.7/stream" ⟨"rtsp://10.0.0.7/stream", ⟨640, 480⟩⟩
    ⟨"rtsp://10.0.0.7/stream", ⟨"rtsp://10.0.0.7/stream", ⟨640, 480⟩⟩⟩ rfl

/-- C1 counterexample: for a frame of width 0 (height 1), `frame_texture`
does fail with a checked error instead of panicking, but only after
`device.create_texture` has been issued: the GPU trace already contains a
`create_texture` allocation when the zero-dimension validation error is
surfaced, so the error is not surfaced before any GPU call and a texture
is allocated. -/
theorem frame_texture_counterexample :
    (NetworkCamera.frame_texture none (.ok ⟨0, 1, [], rfl⟩)).1 =
      .error (NokhwaError.ReadFrameError
        "out of range integral type conversion attempted") ∧
    (NetworkCamera.frame_texture none (.ok ⟨0, 1, [], rfl⟩)).2.filter
      GpuCall.isCreateTexture ≠ [] :=
  ⟨rfl, by
    simp [NetworkCamera.frame_texture, nonZeroU32TryFrom, u32Mul, GpuCall.isCreateTexture]⟩

/-- C1 amended: for every frame whose width or height is 0,
`frame_texture` fails with a checked validation error
(`NokhwaError::ReadFrameError` from the failed `NonZeroU32` conversion)
rather than panicking, and no `write_texture` is issued — but the error is
surfaced only after one GPU call: `create_texture` has already allocated
the texture when the zero dimension is detected. -/
theorem frame_texture_zero_dim_spec (label : Option String) (frame : FrameRGB)
    (h : frame.width = 0 ∨ frame.height = 0) :
    (NetworkCamera.frame_texture label (.ok frame)).1 =
      .error (NokhwaError.ReadFrameError
        "out of range integral type conversion attempted") ∧
    (NetworkCamera.frame_texture label (.ok frame)).2 =
      [GpuCall.createTexture
        { label := label
          size := { width := frame.width, height := frame.height,
                    depth_or_array_layers := 1 }
          mip_level_count := 1
          sample_count := 1
          dimension := TextureDimension.D2
          format := TextureFormat.Rgba8UnormSrgb
          usage := { TEXTURE_BINDING := true, COPY_DST := true } }] := by
  by_cases hw : u32Mul 4 frame.width = 0
  · constructor <;> simp [NetworkCamera.frame_texture, nonZeroU32TryFrom, hw]
  · have hwidth : frame.width ≠ 0 := by
      intro h0
      exact hw (by simp [u32Mul, h0])
    have hh : frame.height = 0 := h.resolve_left hwidth
    constructor <;> simp [NetworkCamera.frame_texture, nonZeroU32TryFrom, hw, hh]

/-- C1 witness: the amended statement at a concrete 0×1 frame. -/
theorem frame_texture_zero_dim_spec_witness :
    (NetworkCamera.frame_texture none (.ok ⟨0, 1, [], rfl⟩)).1 =
      .error (NokhwaError.ReadFrameError
        "out of range integral type conversion attempted") ∧
    (NetworkCamera.frame_texture none (.ok ⟨0, 1, [], rfl⟩)).2 =
      [GpuCall.createTexture
        { label := none
          size := { width := 0, height := 1, depth_or_array_layers := 1 }
          mip_level_count := 1
          sample_count := 1
          dimension := TextureDimension.D2
          format := TextureFormat.Rgba8UnormSrgb
          usage := { TEXTURE_BINDING := true, COPY_DST := true } }] :=
  frame_texture_zero_dim_spec none ⟨0, 1, [], rfl⟩ (Or.inl rfl)

/-- C6 counterexample: at width `2 ^ 30 + 1` (representable as a `u32`
`ImageBuffer` width) and height 1, the `u32` product `4 * width` wraps to
4, so `frame_texture` succeeds but the `write_texture` layout carries
`bytes_per_row = some 4`, which is not `4 * width`. -/
theorem frame_texture_success_counterexample :
    NetworkCamera.frame_texture none (.ok ⟨2 ^ 30 + 1, 1,
        List.replicate ((2 ^ 30 + 1) * 1 * 3) 0, List.length_replicate _ _⟩) =
      (.ok { desc :=
          { label := none
            size := { width := 2 ^ 30 + 1, height := 1, depth_or_array_layers := 1 }
            mip_level_count := 1
            sample_count := 1
            dimension := TextureDimension.D2
            format := TextureFormat.Rgba8UnormSrgb
            usage := { TEXTURE_BINDING := true, COPY_DST := true } } },
       [GpuCall.createTexture
          { label := none
            size := { width := 2 ^ 30 + 1, height := 1, depth_or_array_layers := 1 }
            mip_level_count := 1
            sample_count := 1
            dimension := TextureDimension.D2
            format := TextureFormat.Rgba8UnormSrgb
            usage := { TEXTURE_BINDING := true, COPY_DST := true } },
        GpuCall.writeTexture
          { label := none
            size := { width := 2 ^ 30 + 1, height := 1, depth_or_array_layers := 1 }
            mip_level_count := 1
            sample_count := 1
            dimension := TextureDimension.D2
            format := TextureFormat.Rgba8UnormSrgb
            usage := { TEXTURE_BINDING := true, COPY_DST := true } }
          (rgb_to_rgba (List.replicate ((2 ^ 30 + 1) * 1 * 3) 0))
          { offset := 0
            bytes_per_row := some 4
            rows_per_image := some 1 }
          { width := 2 ^ 30 + 1, height := 1, depth_or_array_layers := 1 }]) ∧
    (4 : Nat) ≠ 4 * (2 ^ 30 + 1) :=
  ⟨rfl, by norm_num⟩

/-- C6 amended: on a frame with nonzero width and height whose `u32`
product `4 * width` does not overflow (`4 * width < 2 ^ 32`, i.e. width
below `2 ^ 30`), `frame_texture` succeeds and returns a texture whose
descriptor matches the frame's width and height, has format
`Rgba8UnormSrgb` (8-bit RGBA, sRGB interpretation), one mip level, one
sample, 2D dimension, and the sampling-source plus copy-destination
usages; the pixel data written by the single `write_texture` call is the
RGBA conversion of the frame, laid out with `bytes_per_row = 4 * width`.
For larger widths the wrapped product makes the call fail (wrapped value
0) or write with the wrapped stride instead of `4 * width`. -/
theorem frame_texture_success_spec (label : Option String) (frame : FrameRGB)
    (hw : 0 < frame.width) (hh : 0 < frame.height)
    (hfit : 4 * frame.width < 4294967296) :
    NetworkCamera.frame_texture label (.ok frame) =
      (.ok { desc :=
          { label := label
            size := { width := frame.width, height := frame.height,
                      depth_or_array_layers := 1 }
            mip_level_count := 1
            sample_count := 1
            dimension := TextureDimension.D2
            format := TextureFormat.Rgba8UnormSrgb
            usage := { TEXTURE_BINDING := true, COPY_DST := true } } },
       [GpuCall.createTexture
          { label := label
            size := { width := frame.width, height := frame.height,
                      depth_or_array_layers := 1 }
            mip_level_count := 1
            sample_count := 1
            dimension := TextureDimension.D2
            format := TextureFormat.Rgba8UnormSrgb
            usage := { TEXTURE_BINDING := true, COPY_DST := true } },
        GpuCall.writeTexture
          { label := label
            size := { width := frame.width, height := frame.height,
                      depth_or_array_layers := 1 }
            mip_level_count := 1
            sample_count := 1
            dimension := TextureDimension.D2
            format := TextureFormat.Rgba8UnormSrgb
            usage := { TEXTURE_BINDING := true, COPY_DST := true } }
          (rgb_to_rgba frame.data)
          { offset := 0
            bytes_per_row := some (4 * frame.width)
            rows_per_image := some frame.height }
          { width := frame.width, height := frame.height,
            depth_or_array_layers := 1 }]) := by
  have hmul : u32Mul 4 frame.width = 4 * frame.width := Nat.mod_eq_of_lt hfit
  have h4 : ¬ 4 * frame.width = 0 := by omega
  have hh0 : ¬ frame.height = 0 := by omega
  simp [NetworkCamera.frame_texture, nonZeroU32TryFrom, hmul, h4, hh0]

/-- C6 witness: a concrete 1×1 frame uploads to a 1×1 texture with
`bytes_per_row = 4`. -/
theorem frame_texture_success_spec_witness :
    NetworkCamera.frame_texture (some "cam") (.ok ⟨1, 1, [10, 20, 30], rfl⟩) =
      (.ok { desc :=
          { label := some "cam"
            size := { width := 1, height := 1, depth_or_array_layers := 1 }
            mip_level_count := 1
            sample_count := 1
            dimension := TextureDimension.D2
            format := TextureFormat.Rgba8UnormSrgb
            usage := { TEXTURE_BINDING := true, COPY_DST := true } } },
       [GpuCall.createTexture
          { label := some "cam"
            size := { width := 1, height := 1, depth_or_array_layers := 1 }
            mip_level_count := 1
            sample_count := 1
            dimension := TextureDimension.D2
            format := TextureFormat.Rgba8UnormSrgb
            usage := { TEXTURE_BINDING := true, COPY_DST := true } },
        GpuCall.writeTexture
          { label := some "cam"
            size := { width := 1, height := 1, depth_or_array_layers := 1 }
            mip_level_count := 1
            sample_count := 1
            dimension := TextureDimension.D2
            format := TextureFormat.Rgba8UnormSrgb
            usage := { TEXTURE_BINDING := true, COPY_DST := true } }
          (rgb_to_rgba [10, 20, 30])
          { offset := 0
            bytes_per_row := some (4 * 1)
            rows_per_image := some 1 }
          { width := 1, height := 1, depth_or_array_layers := 1 }]) :=
  frame_texture_success_spec (some "cam") ⟨1, 1, [10, 20, 30], rfl⟩
    (by decide) (by decide) (by norm_num)

end NokhwaSpec
